import Mathlib

/-!
Shallow embedding of the Car/SOLID demonstration
(`src/module03 - SOLID/ex00/car.hpp`): the subsystem state holders
(Engine, Transmission, SteeringSystem, BrakingSystem), the transition
policy `DefaultCarPolicy`, and the `Car` facade operations that the
claims concern.  Logging is pure console output in the source and is
not modelled; C++ `int` fields are modelled as `Int` (no arithmetic
that could overflow occurs).  Stateful C++ methods become functions
from the old state to the new state, paired with the returned `Bool`
where the method returns one.
-/

/-- The `Gear` enum of the source: `enum Gear { P, D, R }`. -/
inductive Gear where
  | P
  | D
  | R
deriving DecidableEq

/-- `Engine`: holds the `_is_active` flag, exposed by `is_active()`. -/
structure Engine where
  is_active : Bool
deriving DecidableEq

/-- `Engine::start()`: sets `_is_active = true`. -/
def Engine.start (_e : Engine) : Engine :=
  { is_active := true }

/-- `Engine::stop()`: sets `_is_active = false`. -/
def Engine.stop (_e : Engine) : Engine :=
  { is_active := false }

/-- `Transmission`: holds `_current_gear`, exposed by `get_current_gear()`. -/
structure Transmission where
  current_gear : Gear
deriving DecidableEq

/-- `Transmission::get_current_gear()`. -/
def Transmission.get_current_gear (t : Transmission) : Gear :=
  t.current_gear

/-- `Transmission::is_in_park()`: `_current_gear == P`. -/
def Transmission.is_in_park (t : Transmission) : Bool :=
  t.current_gear == Gear.P

/-- `Transmission::_try_set(gear)`: returns `false` and leaves the gear
unchanged when `gear == _current_gear`, otherwise sets the gear, logs the
transition and returns `true`. -/
def Transmission.try_set (t : Transmission) (gear : Gear) : Bool × Transmission :=
  if gear = t.current_gear then
    (false, t)
  else
    (true, { current_gear := gear })

/-- `Transmission::to_park()`: `_try_set(P)`. -/
def Transmission.to_park (t : Transmission) : Bool × Transmission :=
  t.try_set Gear.P

/-- `Transmission::to_drive()`: `_try_set(D)`. -/
def Transmission.to_drive (t : Transmission) : Bool × Transmission :=
  t.try_set Gear.D

/-- `Transmission::to_reverse()`: `_try_set(R)`. -/
def Transmission.to_reverse (t : Transmission) : Bool × Transmission :=
  t.try_set Gear.R

/-- `SteeringSystem::MAX_TURN_ANGLE = 45`. -/
def MAX_TURN_ANGLE : Int := 45

/-- `SteeringSystem`: holds `_current_angle`. -/
structure SteeringSystem where
  current_angle : Int
deriving DecidableEq

/-- `SteeringSystem::turn_wheel(angle)`: rejects (returns `false`, state
unchanged) when `angle < -MAX_TURN_ANGLE || angle > MAX_TURN_ANGLE`,
otherwise stores the angle and returns `true`. -/
def SteeringSystem.turn_wheel (s : SteeringSystem) (angle : Int) : Bool × SteeringSystem :=
  if angle < -MAX_TURN_ANGLE ∨ angle > MAX_TURN_ANGLE then
    (false, s)
  else
    (true, { current_angle := angle })

/-- `SteeringSystem::straighten_wheels()`: sets `_current_angle = 0`. -/
def SteeringSystem.straighten_wheels (_s : SteeringSystem) : SteeringSystem :=
  { current_angle := 0 }

/-- `BrakingSystem::MAX_BRAKE_FORCE = 100`. -/
def MAX_BRAKE_FORCE : Int := 100

/-- `BrakingSystem`: holds `_current_force`, exposed by `get_current_force()`. -/
structure BrakingSystem where
  current_force : Int
deriving DecidableEq

/-- `BrakingSystem::apply_force_on_brakes(force)`: rejects (returns
`false`, state unchanged) when `force < 0 || force > MAX_BRAKE_FORCE`,
otherwise stores the force and returns `true`. -/
def BrakingSystem.apply_force_on_brakes (b : BrakingSystem) (force : Int) : Bool × BrakingSystem :=
  if force < 0 ∨ force > MAX_BRAKE_FORCE then
    (false, b)
  else
    (true, { current_force := force })

/-- `BrakingSystem::apply_emergency_brakes()`: sets `_current_force = MAX_BRAKE_FORCE`. -/
def BrakingSystem.apply_emergency_brakes (_b : BrakingSystem) : BrakingSystem :=
  { current_force := MAX_BRAKE_FORCE }

/-- `BrakingSystem::get_current_force()`. -/
def BrakingSystem.get_current_force (b : BrakingSystem) : Int :=
  b.current_force

/-- `BrakingSystem::is_braking()`: `_current_force > 0`. -/
def BrakingSystem.is_braking (b : BrakingSystem) : Bool :=
  decide (b.current_force > 0)

/-- `DefaultCarPolicy::can_start`: rejects when the engine is active,
when the transmission is not in Park, or when the brakes are engaged. -/
def DefaultCarPolicy.can_start (engine : Engine) (transmission : Transmission)
    (braking_system : BrakingSystem) : Bool :=
  if engine.is_active then false
  else if !transmission.is_in_park then false
  else if braking_system.is_braking then false
  else true

/-- `DefaultCarPolicy::can_stop`: rejects when the engine is not active
or when the transmission is in Park. -/
def DefaultCarPolicy.can_stop (engine : Engine) (transmission : Transmission) : Bool :=
  if !engine.is_active then false
  else if transmission.is_in_park then false
  else true

/-- `DefaultCarPolicy::can_accelerate`: rejects when the engine is not
active, when the transmission is in Park, or when the brakes are engaged. -/
def DefaultCarPolicy.can_accelerate (engine : Engine) (transmission : Transmission)
    (braking_system : BrakingSystem) : Bool :=
  if !engine.is_active then false
  else if transmission.is_in_park then false
  else if braking_system.is_braking then false
  else true

/-- `DefaultCarPolicy::can_reverse`: rejects when the current gear is not
`R` or when the brakes are not engaged. -/
def DefaultCarPolicy.can_reverse (transmission : Transmission)
    (braking_system : BrakingSystem) : Bool :=
  if transmission.get_current_gear ≠ Gear.R then false
  else if !braking_system.is_braking then false
  else true

/-- The observable state of a `Car`: its four subsystems (the source
holds them by reference; the policy `DefaultCarPolicy` is stateless). -/
structure CarState where
  engine : Engine
  transmission : Transmission
  steering_system : SteeringSystem
  braking_system : BrakingSystem
deriving DecidableEq

/-- The subsystem states as constructed in `main`: `Engine` starts with
`_is_active = false`, `Transmission` in gear `P`, `SteeringSystem` at
angle `0`, `BrakingSystem` at force `0`. -/
def carInit : CarState :=
  { engine := { is_active := false }
  , transmission := { current_gear := Gear.P }
  , steering_system := { current_angle := 0 }
  , braking_system := { current_force := 0 } }

/-- `Car::start()`: first `_braking_system.apply_emergency_brakes()`,
then checks `_policy.can_start` on the (updated) subsystems; if the
policy rejects, nothing further happens; otherwise `_engine.start()`. -/
def Car.start (c : CarState) : CarState :=
  let c1 : CarState := { c with braking_system := c.braking_system.apply_emergency_brakes }
  if !DefaultCarPolicy.can_start c1.engine c1.transmission c1.braking_system then
    c1
  else
    { c1 with engine := c1.engine.start }

/-- `Car::stop()`: checks `_policy.can_stop`; if the policy rejects,
nothing happens; otherwise `_braking_system.apply_emergency_brakes()`
and `_engine.stop()` (the transmission is never touched, although the
log line claims the transmission was set to Park). -/
def Car.stop (c : CarState) : CarState :=
  if !DefaultCarPolicy.can_stop c.engine c.transmission then
    c
  else
    { c with braking_system := c.braking_system.apply_emergency_brakes
           , engine := c.engine.stop }

/-- The operations of the braking and steering subsystems (the
mutators exposed by `BrakingSystem` and `SteeringSystem`). -/
inductive SubsysOp where
  | apply_force_on_brakes (force : Int)
  | apply_emergency_brakes
  | turn_wheel (angle : Int)
  | straighten_wheels

/-- Effect of one braking/steering subsystem operation on the pair of
subsystem states (returned booleans discarded, as in the facade). -/
def subsys_step (op : SubsysOp) (p : BrakingSystem × SteeringSystem) :
    BrakingSystem × SteeringSystem :=
  match op with
  | SubsysOp.apply_force_on_brakes f => ((p.1.apply_force_on_brakes f).2, p.2)
  | SubsysOp.apply_emergency_brakes => (p.1.apply_emergency_brakes, p.2)
  | SubsysOp.turn_wheel a => (p.1, (p.2.turn_wheel a).2)
  | SubsysOp.straighten_wheels => (p.1, p.2.straighten_wheels)

/-- Braking/steering states reachable from the constructed initial
state by the subsystems' own operations. -/
inductive SubsysReachable : BrakingSystem × SteeringSystem → Prop where
  | init : SubsysReachable (carInit.braking_system, carInit.steering_system)
  | step (op : SubsysOp) (p : BrakingSystem × SteeringSystem) :
      SubsysReachable p → SubsysReachable (subsys_step op p)

/-! ## Claims -/

/-- C1: the claim says that from the vehicle at rest (engine inactive,
gear Park, brake force 0) `Car::start()` activates the engine.  The code
does the opposite: `start()` applies the emergency brakes first, so
`can_start` (which requires the brakes disengaged) always rejects and
the engine stays inactive.  This theorem evaluates the code at the
claim's initial state. -/
theorem c1_start_from_rest_engine_stays_inactive :
    (Car.start carInit).engine.is_active = false := by
  decide

/-- C2: `DefaultCarPolicy::can_start` returns true iff the engine is
inactive, the gear is Park, and the brake force is 0 (on any braking
state satisfying the data-model invariant `0 ≤ force`). -/
theorem c2_can_start_iff (e : Engine) (t : Transmission) (b : BrakingSystem)
    (hb : 0 ≤ b.current_force) :
    DefaultCarPolicy.can_start e t b = true ↔
      e.is_active = false ∧ t.current_gear = Gear.P ∧ b.current_force = 0 := by
  cases e with
  | mk ea =>
    cases t with
    | mk g =>
      cases b with
      | mk f =>
        simp only [DefaultCarPolicy.can_start, Transmission.is_in_park,
          BrakingSystem.is_braking] at *
        cases ea <;> cases g <;> simp_all
        all_goals omega

/-- C2 witness: the iff instantiated at a concrete at-rest state. -/
theorem c2_can_start_iff_witness :
    DefaultCarPolicy.can_start { is_active := false } { current_gear := Gear.P }
      { current_force := 0 } = true :=
  (c2_can_start_iff { is_active := false } { current_gear := Gear.P }
    { current_force := 0 } (by decide)).mpr (by exact ⟨rfl, rfl, rfl⟩)

/-- C3: `Car::start()` forces the brake force to the maximum (100),
evaluates `can_start` on the resulting state, activates the engine only
if it returns true, and otherwise changes nothing further (the
transmission, steering and engine states are untouched; no error). -/
theorem c3_start_shape (c : CarState) :
    (Car.start c).braking_system.current_force = 100 ∧
    (Car.start c).transmission = c.transmission ∧
    (Car.start c).steering_system = c.steering_system ∧
    (Car.start c).engine =
      (if DefaultCarPolicy.can_start c.engine c.transmission
          (c.braking_system.apply_emergency_brakes) = true
       then c.engine.start else c.engine) := by
  cases h : DefaultCarPolicy.can_start c.engine c.transmission
      (c.braking_system.apply_emergency_brakes) with
  | false =>
    simp only [BrakingSystem.apply_emergency_brakes, MAX_BRAKE_FORCE] at h
    simp [Car.start, h, BrakingSystem.apply_emergency_brakes, MAX_BRAKE_FORCE]
  | true =>
    simp only [BrakingSystem.apply_emergency_brakes, MAX_BRAKE_FORCE] at h
    simp [Car.start, h, BrakingSystem.apply_emergency_brakes, MAX_BRAKE_FORCE]

/-- C4: `DefaultCarPolicy::can_reverse` returns true iff the current
gear is Reverse and the brake force is strictly positive. -/
theorem c4_can_reverse_iff (t : Transmission) (b : BrakingSystem) :
    DefaultCarPolicy.can_reverse t b = true ↔
      t.current_gear = Gear.R ∧ b.current_force > 0 := by
  cases t with
  | mk g =>
    cases b with
    | mk f =>
      simp only [DefaultCarPolicy.can_reverse, Transmission.get_current_gear,
        BrakingSystem.is_braking]
      cases g <;> simp

/-- C5: `DefaultCarPolicy::can_accelerate` returns true iff the engine
is active, the gear is not Park, and the brake force is 0 (on any
braking state satisfying the data-model invariant `0 ≤ force`). -/
theorem c5_can_accelerate_iff (e : Engine) (t : Transmission) (b : BrakingSystem)
    (hb : 0 ≤ b.current_force) :
    DefaultCarPolicy.can_accelerate e t b = true ↔
      e.is_active = true ∧ t.current_gear ≠ Gear.P ∧ b.current_force = 0 := by
  cases e with
  | mk ea =>
    cases t with
    | mk g =>
      cases b with
      | mk f =>
        simp only [DefaultCarPolicy.can_accelerate, Transmission.is_in_park,
          BrakingSystem.is_braking] at *
        cases ea <;> cases g <;> simp_all
        all_goals omega

/-- C5 witness: the iff instantiated at a concrete state (engine on,
gear Drive, brakes released). -/
theorem c5_can_accelerate_iff_witness :
    DefaultCarPolicy.can_accelerate { is_active := true } { current_gear := Gear.D }
      { current_force := 0 } = true :=
  (c5_can_accelerate_iff { is_active := true } { current_gear := Gear.D }
    { current_force := 0 } (by decide)).mpr (by exact ⟨rfl, by decide, rfl⟩)

/-- C6: every braking/steering state reachable from the constructed
initial state by the subsystems' own operations keeps the brake force
in [0, 100] and the steering angle in [-45, 45]. -/
theorem c6_subsystem_invariant (p : BrakingSystem × SteeringSystem)
    (h : SubsysReachable p) :
    (0 ≤ p.1.current_force ∧ p.1.current_force ≤ 100) ∧
    (-45 ≤ p.2.current_angle ∧ p.2.current_angle ≤ 45) := by
  induction h with
  | init => decide
  | step op q _ ih =>
    cases op with
    | apply_force_on_brakes f =>
      simp only [subsys_step, BrakingSystem.apply_force_on_brakes,
        MAX_BRAKE_FORCE] at *
      split
      · exact ih
      · next hf =>
          dsimp only
          exact ⟨⟨by omega, by omega⟩, ih.2⟩
    | apply_emergency_brakes =>
      simp only [subsys_step, BrakingSystem.apply_emergency_brakes,
        MAX_BRAKE_FORCE] at *
      exact ⟨by omega, ih.2⟩
    | turn_wheel a =>
      simp only [subsys_step, SteeringSystem.turn_wheel, MAX_TURN_ANGLE] at *
      split
      · exact ih
      · next ha =>
          dsimp only
          exact ⟨ih.1, by omega, by omega⟩
    | straighten_wheels =>
      simp only [subsys_step, SteeringSystem.straighten_wheels] at *
      exact ⟨ih.1, by omega, by omega⟩

/-- C6 witness: the invariant holds at the constructed initial state. -/
theorem c6_subsystem_invariant_witness :
    (0 ≤ carInit.braking_system.current_force ∧
      carInit.braking_system.current_force ≤ 100) ∧
    (-45 ≤ carInit.steering_system.current_angle ∧
      carInit.steering_system.current_angle ≤ 45) :=
  c6_subsystem_invariant (carInit.braking_system, carInit.steering_system)
    SubsysReachable.init

/-- C7: `BrakingSystem::apply_force_on_brakes` rejects a requested force
outside [0, 100] (returns false, state unchanged) and accepts a force
inside [0, 100] (stores it, returns true). -/
theorem c7_apply_force_on_brakes (b : BrakingSystem) (f : Int) :
    ((f < 0 ∨ f > 100) → b.apply_force_on_brakes f = (false, b)) ∧
    (0 ≤ f → f ≤ 100 → b.apply_force_on_brakes f = (true, { current_force := f })) := by
  constructor
  · intro h
    simp only [BrakingSystem.apply_force_on_brakes, MAX_BRAKE_FORCE]
    split
    · rfl
    · omega
  · intro h0 h100
    simp only [BrakingSystem.apply_force_on_brakes, MAX_BRAKE_FORCE]
    split
    · omega
    · rfl

/-- C7 witness: an out-of-range request (200) is rejected at prior force
5 and an in-range request (60) is stored. -/
theorem c7_apply_force_on_brakes_witness :
    BrakingSystem.apply_force_on_brakes { current_force := 5 } 200 =
      (false, { current_force := 5 }) ∧
    BrakingSystem.apply_force_on_brakes { current_force := 5 } 60 =
      (true, { current_force := 60 }) :=
  ⟨(c7_apply_force_on_brakes { current_force := 5 } 200).1 (by decide),
   (c7_apply_force_on_brakes { current_force := 5 } 60).2 (by decide) (by decide)⟩

/-- C8: requesting a transition to the current gear is a no-op returning
false: `_try_set` on the current gear, and hence `to_park`, `to_drive`
and `to_reverse` when already in that gear, return false and leave the
gear unchanged. -/
theorem c8_same_gear_noop :
    (∀ g : Gear, Transmission.try_set { current_gear := g } g =
      (false, { current_gear := g })) ∧
    Transmission.to_park { current_gear := Gear.P } =
      (false, { current_gear := Gear.P }) ∧
    Transmission.to_drive { current_gear := Gear.D } =
      (false, { current_gear := Gear.D }) ∧
    Transmission.to_reverse { current_gear := Gear.R } =
      (false, { current_gear := Gear.R }) := by
  refine ⟨fun g => ?_, rfl, rfl, rfl⟩
  cases g <;> rfl

/-- C9: `BrakingSystem::apply_emergency_brakes` sets the stored force to
exactly 100 whatever the prior force was. -/
theorem c9_emergency_brakes_force (b : BrakingSystem) :
    (b.apply_emergency_brakes).current_force = 100 :=
  rfl

/-- C10: `Car::stop()` never changes the transmission gear (nor the
steering): whether or not the policy permits the stop, only the brake
force and the engine flag may change. -/
theorem c10_stop_preserves_gear (c : CarState) :
    (Car.stop c).transmission = c.transmission ∧
    (Car.stop c).steering_system = c.steering_system := by
  unfold Car.stop
  split <;> exact ⟨rfl, rfl⟩
